import Mathlib

/-!
Verification of the insightzen3 response-coding pipeline (core/views.py).

This file gives a shallow embedding of the pure logic of the pipeline:
the reply parser `parse_output`, the markdown-table parser `parse_md_table`,
the category-merge step of `category_view`, the retry loops of `coding_view`
and `category_view`, the workbook column validation, and the codeframe
summary aggregation.  Theorems below settle the specified properties of
these functions.
-/

/-- True for the ASCII whitespace characters stripped by the str.strip
calls of the source (space, tab, newline, carriage return, vertical tab,
form feed). -/
def isSpaceChar (c : Char) : Bool :=
  c == ' ' || c == '\t' || c == '\n' || c == '\r' || c == Char.ofNat 11 || c == Char.ofNat 12

/-- Strip leading and trailing whitespace from a character list. -/
def trimChars (cs : List Char) : List Char :=
  ((cs.dropWhile isSpaceChar).reverse.dropWhile isSpaceChar).reverse

/-- Embedding of Python str.strip(): remove surrounding whitespace. -/
def strip (s : String) : String :=
  String.mk (trimChars s.data)

/-- Helper for `splitChar`: accumulate the current piece (reversed) while
scanning the character list. -/
def splitCharAux (sep : Char) : List Char → List Char → List (List Char)
  | [], acc => [acc.reverse]
  | c :: cs, acc =>
      if c == sep then acc.reverse :: splitCharAux sep cs []
      else splitCharAux sep cs (c :: acc)

/-- Embedding of Python str.split(sep) for a one-character separator,
as used with ";", ",", a newline and "|" in the source. -/
def splitChar (sep : Char) (s : String) : List String :=
  (splitCharAux sep s.data []).map String.mk

/-- Whether the first list is an initial run of the second list. -/
def leadsWith : List Char → List Char → Bool
  | [], _ => true
  | _ :: _, [] => false
  | a :: as, b :: bs => a == b && leadsWith as bs

/-- Whether the needle occurs somewhere in the haystack. -/
def containsList (needle : List Char) : List Char → Bool
  | [] => needle.isEmpty
  | c :: cs => leadsWith needle (c :: cs) || containsList needle cs

/-- Embedding of the Python membership test sub in s on strings. -/
def strContains (s sub : String) : Bool :=
  containsList sub.data s.data

/-- ASCII lower-casing of one character, enough for the lowered
document-marker comparison of the source. -/
def charLower (c : Char) : Char :=
  if 'A' ≤ c && c ≤ 'Z' then Char.ofNat (c.toNat + 32) else c

/-- Embedding of Python str.lower() restricted to ASCII letters. -/
def lowerStr (s : String) : String :=
  String.mk (s.data.map charLower)

/-- Numeric coercion of a cell, the embedding of
pd.to_numeric(x, errors="coerce") followed by integer truncation: an
optional sign, a non-empty run of digits, and an optional fractional part
that is dropped (truncation toward zero, as in the astype(int) casts of
the source).  Returns none when the text is not numeric. -/
def toNumeric? (s : String) : Option Int :=
  let cs := s.data
  let signed : Bool × List Char :=
    match cs with
    | '-' :: rest => (true, rest)
    | '+' :: rest => (false, rest)
    | _ => (false, cs)
  let ip := signed.2.takeWhile (fun c => !(c == '.'))
  let fp := signed.2.dropWhile (fun c => !(c == '.'))
  let fpOk : Bool :=
    match fp with
    | [] => true
    | _ :: frac => frac.all Char.isDigit
  if ip.isEmpty || !(ip.all Char.isDigit) || !fpOk then none
  else
    let n : Int := Int.ofNat (ip.foldl (fun a c => a * 10 + (c.toNat - 48)) 0)
    some (if signed.1 then -n else n)

/-- One parsed reply segment of `parse_output`: the raw respondent-id
field and the non-blank code fields after it.  Returns none when the
segment is blank or splits into fewer than two comma-fields, mirroring
the continue branches of the source loop. -/
def parseSegment (part : String) : Option (String × List String) :=
  let t := strip part
  if t == "" then none
  else
    match splitChar ',' t with
    | [] => none
    | [_] => none
    | idv :: rest => some (strip idv, (rest.map strip).filter (fun c => !(c == "")))

/-- The tabular result of `parse_output`: the column labels and the rows
that survived the numeric-id filter, each row holding the coerced
respondent id and its ordered code list. -/
structure Frame where
  cols : List String
  rows : List (Int × List String)
deriving Repr, DecidableEq

/-- Embedding of parse_output(output, qid) of coding_view (views.py
lines 307-330): split the stripped reply on ";", keep segments with at
least two comma-fields, record the non-blank codes of each, lay out
columns ID, qid_1 .. qid_maxCodes, and drop rows whose id fails numeric
coercion (the dropna on ID). -/
def parse_output (output : String) (qid : String) : Frame :=
  let parts := splitChar ';' (strip output)
  let data := parts.filterMap parseSegment
  let maxCodes := data.foldl (fun m p => max m p.2.length) 0
  if data.isEmpty then ⟨[], []⟩
  else
    { cols := "ID" :: (List.range maxCodes).map (fun i => qid ++ "_" ++ Nat.repr (i + 1)),
      rows := data.filterMap (fun p => (toNumeric? p.1).map (fun n => (n, p.2))) }

/-- Largest CodeId already used for the question, the embedding of
max_cid = max(existing_cids) if existing_cids else 0 in category_view
(views.py line 755). -/
def maxCid : List Int → Int
  | [] => 0
  | c :: cs => cs.foldl max c

/-- The inner loop of the category merge (views.py lines 757-769):
walk the proposed (CodeId, Tag) rows with the running max_cid, discard
rows whose CodeId is already used for the question, honour a proposed
CodeId strictly above max_cid, and otherwise assign max_cid + 1. -/
def mergeGo (existing : List Int) : Int → List (Int × String) → List (Int × String)
  | _, [] => []
  | m, (cid, tag) :: rest =>
      if cid ∈ existing then mergeGo existing m rest
      else if m < cid then (cid, tag) :: mergeGo existing cid rest
      else (m + 1, tag) :: mergeGo existing (m + 1) rest

/-- Embedding of the per-question merge step of category_view (views.py
lines 749-771): the new_rows appended to the codeframe for one question,
given the CodeIds already present for it and the parser output rows in
order. -/
def mergeRows (existing : List Int) (proposed : List (Int × String)) : List (Int × String) :=
  mergeGo existing (maxCid existing) proposed

/-- Outcome of one transport call as the retry loops observe it:
a network or JSON-decoding error (requests.exceptions.RequestException
or json.JSONDecodeError), an HTTP-success JSON body with its extracted
message content, or an HTTP-success body of any other content type. -/
inductive TransportResult where
  | err : TransportResult
  | jsonOk (content : String) : TransportResult
  | rawOk (body : String) : TransportResult
deriving Repr, DecidableEq

/-- The output text recorded for a received response (views.py lines
386-392): JSON content is taken as is; a raw body whose lower-cased text
contains the HTML document marker is replaced by the forbidden-response
marker text. -/
def outputOf : TransportResult → String
  | .err => ""
  | .jsonOk content => content
  | .rawOk body =>
      if strContains (lowerStr body) "<!doctype" then "Forbidden HTML response" else body

/-- Result of the coding-flow call loop: how many requests were made,
how many sleep invocations happened, whether a response was ever
received, and the recorded output text. -/
structure CodingCall where
  attempts : Nat
  sleeps : Nat
  success : Bool
  output : String
deriving Repr, DecidableEq

/-- One unrolling of the coding retry loop (views.py lines 378-397).
The transport is indexed by the number of requests already made.  On an
error the retry counter grows and a sleep happens unless the attempt
budget of 6 is exhausted; on any received response the loop stops.  The
fuel argument only bounds the recursion and never runs out before the
retry counter does. -/
def codingGo (transport : Nat → TransportResult) :
    Nat → Nat → Nat → Nat → CodingCall
  | 0, _, attempts, sleeps => ⟨attempts, sleeps, false, ""⟩
  | fuel + 1, retries, attempts, sleeps =>
      match transport attempts with
      | .err =>
          if retries + 1 < 6 then
            codingGo transport fuel (retries + 1) (attempts + 1) (sleeps + 1)
          else ⟨attempts + 1, sleeps, false, ""⟩
      | r => ⟨attempts + 1, sleeps, true, outputOf r⟩

/-- Embedding of the per-question call of coding_view: run the retry
loop with retries = 0 and max_retries = 6. -/
def codingCall (transport : Nat → TransportResult) : CodingCall :=
  codingGo transport 6 0 0 0

/-- Embedding of the failure check of coding_view (views.py lines
398-404): a question is appended to fail_qids and skipped (so it is
excluded from every output) when the call never succeeded, the output is
empty, the output contains "Forbidden" or "API error", or the parsed
frame has no rows. -/
def questionFailed (transport : Nat → TransportResult) (qid : String) : Bool :=
  let c := codingCall transport
  !c.success || c.output == "" || strContains c.output "Forbidden" ||
    strContains c.output "API error" || (parse_output c.output qid).rows.isEmpty

/-- Result of the category-discovery call loop: requests made, sleep
invocations, and the final response text (none when no response was ever
stored). -/
structure DiscoveryCall where
  attempts : Nat
  sleeps : Nat
  response : Option String
deriving Repr, DecidableEq

/-- One unrolling of the discovery retry loop (views.py lines 706-738).
The attempt counter is incremented at the top of each iteration; an
exception sleeps 5 time units and continues — also on the final
attempt; a received response is stored, a raw body with the HTML
document marker is blanked, and the loop stops once the stored response
is non-blank. -/
def discoveryGo (transport : Nat → TransportResult) :
    Nat → Nat → Nat → Option String → DiscoveryCall
  | 0, attempt, sleeps, rmd => ⟨attempt, sleeps, rmd⟩
  | fuel + 1, attempt, sleeps, rmd =>
      if attempt < 5 then
        match transport attempt with
        | .err => discoveryGo transport fuel (attempt + 1) (sleeps + 1) rmd
        | .jsonOk content =>
            if !(strip content == "") then ⟨attempt + 1, sleeps, some content⟩
            else discoveryGo transport fuel (attempt + 1) sleeps (some content)
        | .rawOk body =>
            let o := if strContains (lowerStr body) "<!doctype" then "" else body
            if !(strip o == "") then ⟨attempt + 1, sleeps, some o⟩
            else discoveryGo transport fuel (attempt + 1) sleeps (some o)
      else ⟨attempt, sleeps, rmd⟩

/-- Embedding of the per-question call of category_view: run the
discovery retry loop with attempt = 0 and max_attempts = 5. -/
def discoveryCall (transport : Nat → TransportResult) : DiscoveryCall :=
  discoveryGo transport 5 0 0 none

/-- Embedding of the skip check after the discovery loop (views.py line
741): the question is skipped when no response was stored or the stored
response is the empty string. -/
def discoverySkipped (d : DiscoveryCall) : Bool :=
  match d.response with
  | none => true
  | some s => s == ""

/-- The column names of the three uploaded tables, the part of the
workbook that the column validation of coding_view inspects. -/
structure Workbook where
  codeframeCols : List String
  questionCols : List String
  dataCols : List String
deriving Repr, DecidableEq

/-- A single quote character, used to spell the quoted sheet names of
the validation messages. -/
def quoteMark : String :=
  String.mk [Char.ofNat 39]

/-- The English message raised when the codeframe sheet lacks a required
column (views.py line 287). -/
def codeframeColsMsg : String :=
  "The " ++ quoteMark ++ "codeframe" ++ quoteMark ++
    " sheet is missing required columns: QID, CID, Tag."

/-- The English message raised when the question sheet lacks a required
column (views.py line 294). -/
def questionColsMsg : String :=
  "The " ++ quoteMark ++ "question" ++ quoteMark ++
    " sheet is missing required columns: QID, Question."

/-- The English message raised when the data sheet lacks the ID column
(views.py line 299). -/
def dataColMsg : String :=
  "The " ++ quoteMark ++ "data" ++ quoteMark ++
    " sheet is missing required column: ID."

/-- Embedding of the column validation of coding_view (views.py lines
285-301): each check raises a ValueError as soon as it fails, so the
result is the message of the first failing table, or none when all three
tables pass. -/
def validateWorkbook (wb : Workbook) : Option String :=
  if !(["QID", "CID", "Tag"].all (fun c => wb.codeframeCols.contains c)) then
    some codeframeColsMsg
  else if !(["QID", "Question"].all (fun c => wb.questionCols.contains c)) then
    some questionColsMsg
  else if !(wb.dataCols.contains "ID") then some dataColMsg
  else none

/-- The non-blank stripped lines of a markdown reply (views.py line
628). -/
def mdLines (md : String) : List String :=
  ((splitChar '\n' (strip md)).map strip).filter (fun l => !(l == ""))

/-- The stripped cells of one markdown table line: split on "|" and drop
the first and last pieces, the embedding of line.split("|")[1:-1]
(views.py lines 632 and 637). -/
def cellsOf (line : String) : List String :=
  (((splitChar '|' line).drop 1).dropLast).map strip

/-- The exact header cells the parser requires (views.py line 643). -/
def expectedHeader : List String :=
  ["کد گزینه", "عنوان گزینه"]

/-- Embedding of parse_md_table of category_view (views.py lines
622-649): need at least two non-blank lines; skip a separator line
containing "---"; keep only data rows whose cell count equals the
header cell count; require the header to equal the two expected column
names; keep rows whose first cell coerces to a number, with the CodeId
truncated to an integer; fail when nothing is left at either filter. -/
def parse_md_table (md : String) : Option (List (Int × String)) :=
  match mdLines md with
  | [] => none
  | [_] => none
  | l0 :: l1 :: rest =>
      let headerCells := cellsOf l0
      let dataLines := if strContains l1 "---" then rest else l1 :: rest
      let dataRows := (dataLines.map cellsOf).filter
        (fun cs => cs.length == headerCells.length)
      if dataRows.isEmpty then none
      else if !(headerCells == expectedHeader) then none
      else
        let parsed := dataRows.filterMap (fun cs =>
          match cs with
          | [c, t] => (toNumeric? c).map (fun n => (n, t))
          | _ => none)
        if parsed.isEmpty then none else some parsed

/-- The header cells of a markdown reply, taken from its first non-blank
line (empty when there is none). -/
def mdHeader (md : String) : List String :=
  cellsOf ((mdLines md).headD "")

/-- The data lines of a markdown reply: everything after the header,
also skipping the second line when it is a separator containing "---". -/
def mdDataLines (md : String) : List String :=
  if strContains ((mdLines md).getD 1 "") "---" then (mdLines md).drop 2
  else (mdLines md).drop 1

/-- The data rows whose cell count matches the header cell count; rows
of any other width are skipped. -/
def mdGoodRows (md : String) : List (List String) :=
  ((mdDataLines md).map cellsOf).filter (fun cs => cs.length == (mdHeader md).length)

/-- The matching data rows whose first cell coerces to a number, with
the CodeId truncated to an integer. -/
def mdParsedRows (md : String) : List (Int × String) :=
  (mdGoodRows md).filterMap (fun cs =>
    match cs with
    | [c, t] => (toNumeric? c).map (fun n => (n, t))
    | _ => none)

/-- The exact circumstances in which parse_md_table fails: fewer than
two non-blank lines, or no data row of matching cell count, or a header
different from the expected column names, or no matching data row with a
numeric first cell. -/
def mdFails (md : String) : Bool :=
  decide ((mdLines md).length < 2) || (mdGoodRows md).isEmpty ||
    !(mdHeader md == expectedHeader) || (mdParsedRows md).isEmpty

/-- The melted (ID, Code) cell pairs of one per-question frame: one pair
per code entry of each row, the embedding of pd.melt over the qid
columns (views.py line 424); absent cells carry no entry. -/
def frameCells (f : Frame) : List (Int × String) :=
  f.rows.flatMap (fun r => r.2.map (fun c => (r.1, c)))

/-- The melted cells that survive the blank and numeric filters of the
summary pass (views.py lines 425-427).  Codes produced by parse_output
are never blank, so the numeric filter is the one that matters; it also
removes the absent cells, whose stringified NaN fails numeric
coercion. -/
def numericCells (f : Frame) : List (Int × String) :=
  (frameCells f).filter (fun p => (toNumeric? p.2).isSome)

/-- The Count entry of the summary for one code of one question: the
number of surviving melted cells holding that code, the embedding of
value_counts (views.py line 428). -/
def codeCount (f : Frame) (c : String) : Nat :=
  (numericCells f).countP (fun p => p.2 == c)

/-- The number of distinct respondents of the frame that were assigned
the code at least once.  This is what the specification says Count is;
the source counts cells instead. -/
def respondentsWith (f : Frame) (c : String) : Nat :=
  ((((numericCells f).filter (fun p => p.2 == c)).map Prod.fst).dedup).length

/-- The number of distinct respondent ids of the merged triple table,
the embedding of len(merged_df["ID"].unique()) (views.py line 420): the
outer join on ID makes its distinct ids the union of the frames'
ids. -/
def totalIds (frames : List Frame) : Nat :=
  ((frames.flatMap (fun f => f.rows.map Prod.fst)).dedup).length

/-- One row of the codeframe summary sheet: question id, code text,
occurrence count and ratio.  The Tag and Tag_en presentation columns are
not modelled. -/
structure SummaryRow where
  qid : String
  code : String
  count : Nat
  ratio : ℚ
deriving Repr, DecidableEq

/-- The summary rows contributed by one question (views.py lines
421-438): one row per distinct surviving code, Count its cell count and
Ratio = Count / total when the total of distinct merged ids is positive,
0 otherwise. -/
def questionSummary (f : Frame) (qid : String) (total : Nat) : List SummaryRow :=
  (((numericCells f).map Prod.snd).dedup).map (fun c =>
    ⟨qid, c, codeCount f c, if 0 < total then (codeCount f c : ℚ) / (total : ℚ) else 0⟩)

/-- Embedding of the codeframe-summary construction of coding_view
(views.py lines 419-438) over the retained per-question frames, paired
with their question ids in processing order. -/
def buildSummary (frames : List (String × Frame)) : List SummaryRow :=
  let total := totalIds (frames.map Prod.snd)
  frames.flatMap (fun qf => questionSummary qf.2 qf.1 total)

/-- The summary of a single retained frame is its question summary taken
against the distinct ids of that frame alone. -/
theorem buildSummary_singleton (qid : String) (f : Frame) :
    buildSummary [(qid, f)] = questionSummary f qid (totalIds [f]) := by
  simp [buildSummary, totalIds]

/-- Concrete evaluation of the summary over the frame parsed from the
reply "1,5,5", which lists code 5 twice for respondent 1. -/
theorem buildSummary_dup_eval :
    buildSummary [("Q1", parse_output "1,5,5" "Q1")] = [⟨"Q1", "5", 2, 2⟩] := by
  rw [buildSummary_singleton, questionSummary]
  rw [show (((numericCells (parse_output "1,5,5" "Q1")).map Prod.snd).dedup) = ["5"]
    from by decide]
  simp only [List.map_cons, List.map_nil]
  rw [show codeCount (parse_output "1,5,5" "Q1") "5" = 2 from by decide]
  rw [show totalIds [parse_output "1,5,5" "Q1"] = 1 from by decide]
  norm_num

/-- Concrete evaluation of the summary over the frame parsed from the
reply "1,7,7", which lists code 7 twice for respondent 1. -/
theorem buildSummary_dup2_eval :
    buildSummary [("Q2", parse_output "1,7,7" "Q2")] = [⟨"Q2", "7", 2, 2⟩] := by
  rw [buildSummary_singleton, questionSummary]
  rw [show (((numericCells (parse_output "1,7,7" "Q2")).map Prod.snd).dedup) = ["7"]
    from by decide]
  simp only [List.map_cons, List.map_nil]
  rw [show codeCount (parse_output "1,7,7" "Q2") "7" = 2 from by decide]
  rw [show totalIds [parse_output "1,7,7" "Q2"] = 1 from by decide]
  norm_num

/-- Every initial accumulator is bounded by a max fold over it, and so
is every list element. -/
theorem le_foldl_max (l : List Int) : ∀ b : Int,
    b ≤ l.foldl max b ∧ ∀ c ∈ l, c ≤ l.foldl max b := by
  induction l with
  | nil => intro b; exact ⟨le_refl b, by simp⟩
  | cons a t ih =>
      intro b
      have h := ih (max b a)
      simp only [List.foldl_cons]
      refine ⟨le_trans (le_max_left b a) h.1, ?_⟩
      intro c hc
      rcases List.mem_cons.mp hc with rfl | hc
      · exact le_trans (le_max_right b c) h.1
      · exact h.2 c hc

/-- Every CodeId already present for the question is at most the
starting max_cid. -/
theorem mem_le_maxCid (l : List Int) (c : Int) (hc : c ∈ l) : c ≤ maxCid l := by
  cases l with
  | nil => cases hc
  | cons a t =>
      rcases List.mem_cons.mp hc with rfl | hc
      · exact (le_foldl_max t c).1
      · exact (le_foldl_max t a).2 c hc

/-- Every row the merge loop emits carries a CodeId strictly above the
max_cid the loop started from. -/
theorem mergeGo_gt (existing : List Int) (proposed : List (Int × String)) :
    ∀ m : Int, ∀ r ∈ mergeGo existing m proposed, m < r.1 := by
  induction proposed with
  | nil => intro m r hr; simp [mergeGo] at hr
  | cons p t ih =>
      intro m r hr
      obtain ⟨cid, tag⟩ := p
      simp only [mergeGo] at hr
      by_cases h1 : cid ∈ existing
      · rw [if_pos h1] at hr
        exact ih m r hr
      · rw [if_neg h1] at hr
        by_cases h2 : m < cid
        · rw [if_pos h2] at hr
          rcases List.mem_cons.mp hr with rfl | hr
          · exact h2
          · exact lt_trans h2 (ih cid r hr)
        · rw [if_neg h2] at hr
          rcases List.mem_cons.mp hr with rfl | hr
          · exact lt_add_one m
          · exact lt_trans (lt_add_one m) (ih (m + 1) r hr)

/-- The CodeIds the merge loop emits are strictly increasing. -/
theorem mergeGo_sorted (existing : List Int) (proposed : List (Int × String)) :
    ∀ m : Int, List.Pairwise (fun a b : Int × String => a.1 < b.1)
      (mergeGo existing m proposed) := by
  induction proposed with
  | nil => intro m; simp [mergeGo]
  | cons p t ih =>
      intro m
      obtain ⟨cid, tag⟩ := p
      simp only [mergeGo]
      by_cases h1 : cid ∈ existing
      · rw [if_pos h1]
        exact ih m
      · rw [if_neg h1]
        by_cases h2 : m < cid
        · rw [if_pos h2]
          exact List.Pairwise.cons (fun r hr => mergeGo_gt existing t cid r hr) (ih cid)
        · rw [if_neg h2]
          exact List.Pairwise.cons (fun r hr => mergeGo_gt existing t (m + 1) r hr) (ih (m + 1))

/-- Counting a predicate over a concatenation of mapped blocks is the
sum of the per-block counts. -/
theorem countP_flatMap {α β : Type} (p : α → Bool) (g : β → List α) (l : List β) :
    (l.flatMap g).countP p = (l.map (fun b => (g b).countP p)).sum := by
  induction l with
  | nil => simp
  | cons b t ih => simp [List.flatMap_cons, List.countP_append, ih]

/-- Claim C1, counterexample: on the input "1,5,7;2,5;abc;3," with
question id "Q1" the parser does not return a two-row frame — the
segment "3," splits into two raw comma-fields and therefore survives
the fewer-than-two-fields check, contributing a third row. -/
theorem parse_output_example_not_two_rows :
    ¬ ((parse_output "1,5,7;2,5;abc;3," "Q1").rows.length = 2) := by decide

/-- Claim C1, amended: parse_output("1,5,7;2,5;abc;3,", "Q1") returns a
frame with columns ID, Q1_1, Q1_2 and exactly three rows — respondent 1
with codes [5,7], respondent 2 with codes [5], and respondent 3 with no
codes.  "abc" is dropped because it splits into a single comma-field;
"3," is kept because the raw split yields two fields and the blank-code
filter only runs afterwards. -/
theorem parse_output_example_three_rows :
    parse_output "1,5,7;2,5;abc;3," "Q1" =
      ⟨["ID", "Q1_1", "Q1_2"], [(1, ["5", "7"]), (2, ["5"]), (3, [])]⟩ := by decide

/-- Claim C2, counterexample: with existing CodeIds {1,2,3} and the
proposed rows of the claim, the appended rows are not
[(10,"new-a"),(5,"seq")] — accepting CodeId 10 raises max_cid to 10, so
the later colliding CodeId 4 is resequenced to 11, not 5. -/
theorem merge_example_not_five :
    ¬ (mergeRows [1, 2, 3] [(2, "dup"), (10, "new-a"), (1, "dup2"), (4, "seq")] =
      [(10, "new-a"), (5, "seq")]) := by decide

/-- Claim C2, amended: with existing CodeIds {1,2,3} for the question
and proposed rows [(2,"dup"),(10,"new-a"),(1,"dup2"),(4,"seq")] in that
order, the rows appended to the codebook are exactly
[(10,"new-a"),(11,"seq")]: CodeIds 2 and 1 are discarded as duplicates,
10 is accepted as proposed and raises max_cid to 10, and 4 is at most
the raised max_cid and is therefore reassigned to 11. -/
theorem merge_example_eleven :
    mergeRows [1, 2, 3] [(2, "dup"), (10, "new-a"), (1, "dup2"), (4, "seq")] =
      [(10, "new-a"), (11, "seq")] := by decide

/-- Claim C3: for every set of existing CodeIds and every ordered list
of proposed rows, each row the merge step appends carries a CodeId
absent from the existing CodeIds of the question, and the appended
CodeIds are pairwise distinct, so the per-question (QuestionId, CodeId)
uniqueness of the codebook is preserved. -/
theorem mergeRows_preserves_uniqueness (existing : List Int)
    (proposed : List (Int × String)) :
    (∀ r ∈ mergeRows existing proposed, r.1 ∉ existing) ∧
      List.Pairwise (fun a b : Int × String => a.1 ≠ b.1)
        (mergeRows existing proposed) := by
  constructor
  · intro r hr hmem
    have h1 := mergeGo_gt existing proposed (maxCid existing) r hr
    have h2 := mem_le_maxCid existing r.1 hmem
    exact absurd h1 (not_lt.mpr h2)
  · exact (mergeGo_sorted existing proposed (maxCid existing)).imp (fun h => ne_of_lt h)

/-- Claim C3, witness: the uniqueness theorem applied to a concrete
merge whose appended row (10,"new") indeed avoids the existing CodeIds
{1,2,3}. -/
theorem mergeRows_preserves_uniqueness_witness :
    ((10 : Int), "new") ∈ mergeRows [1, 2, 3] [(10, "new")] ∧
      ¬ ((10 : Int) ∈ ([1, 2, 3] : List Int)) := by
  refine ⟨by decide, ?_⟩
  exact (mergeRows_preserves_uniqueness [1, 2, 3] [(10, "new")]).1 (10, "new") (by decide)

/-- Claim C4, counterexample: with a transport that raises a network
error on every call, the discovery flow sleeps 5 times, not 4 — the
sleep sits in the exception handler and runs after the final failed
attempt as well. -/
theorem discovery_sleeps_not_four :
    ¬ ((discoveryCall (fun _ => TransportResult.err)).sleeps = 4) := by decide

/-- Claim C4, amended: with a transport that raises a network error on
every call, the coding flow makes exactly 6 request attempts with
exactly 5 sleep invocations (none after the final attempt) and the
question is marked failed, while the discovery flow makes exactly 5
request attempts with exactly 5 sleep invocations (one after every
failed attempt, the final one included) and the question is skipped. -/
theorem retry_exhaustion_counts :
    codingCall (fun _ => TransportResult.err) = ⟨6, 5, false, ""⟩ ∧
      discoveryCall (fun _ => TransportResult.err) = ⟨5, 5, none⟩ ∧
      (∀ qid : String, questionFailed (fun _ => TransportResult.err) qid = true) ∧
      discoverySkipped (discoveryCall (fun _ => TransportResult.err)) = true := by
  refine ⟨by decide, by decide, ?_, by decide⟩
  intro qid
  rfl

/-- Claim C5, counterexample: a workbook whose codeframe sheet lacks
QID, whose question sheet lacks Question and whose data sheet lacks ID
aborts with the codeframe message alone, which mentions neither the
question sheet nor the data sheet — the validation does not list every
violation found. -/
theorem validate_first_violation_only :
    validateWorkbook ⟨["CID", "Tag"], ["QID"], []⟩ = some codeframeColsMsg ∧
      strContains codeframeColsMsg "question" = false ∧
      strContains codeframeColsMsg "data" = false ∧
      strContains codeframeColsMsg "Question" = false := by decide

/-- Claim C5, amended: the validation checks the tables in the order
codeframe, question, data, and aborts with the fixed message of the
first table whose required columns are incomplete; violations on later
tables are not reported. -/
theorem validate_reports_first :
    validateWorkbook ⟨["CID", "Tag"], ["QID"], []⟩ = some codeframeColsMsg ∧
      validateWorkbook ⟨["QID", "CID", "Tag"], ["QID"], []⟩ = some questionColsMsg ∧
      validateWorkbook ⟨["QID", "CID", "Tag"], ["QID", "Question"], []⟩ = some dataColMsg ∧
      validateWorkbook ⟨["QID", "CID", "Tag"], ["QID", "Question"], ["ID"]⟩ = none := by
  decide

/-- A chain of three none-producing guards collapses to a single guard
on their disjunction. -/
theorem ite_none_chain (b1 b2 b3 : Bool) (v : List (Int × String)) :
    (if b1 then (none : Option (List (Int × String)))
      else if b2 then none else if b3 then none else some v) =
      (if b1 || b2 || b3 then none else some v) := by
  cases b1 <;> cases b2 <;> cases b3 <;> simp

/-- A markdown reply whose header matches, with one matching data row
and one short data row. -/
def mdCex : String :=
  "| کد گزینه | عنوان گزینه |\n| 1 | a |\n| 2 |"

/-- Claim C6, counterexample: the line "| 2 |" is a data row of the
reply with a cell count different from the header cell count, yet the
parser does not return none — it silently skips the short row and
returns the remaining row, so a data-row cell-count mismatch is not a
failure condition. -/
theorem parse_md_table_skips_short_rows :
    parse_md_table mdCex = some [(1, "a")] ∧
      "| 2 |" ∈ mdDataLines mdCex ∧
      ¬ ((cellsOf "| 2 |").length = (mdHeader mdCex).length) := by decide

/-- Claim C6, amended: parse_md_table returns none exactly when the
input has fewer than 2 non-blank lines, or no data row has a cell count
equal to the header cell count (rows of other widths are skipped, not
fatal), or the header does not equal the two expected column names, or
filtering the matching rows to those whose first cell coerces to a
number leaves zero rows; in every other case it returns those rows with
CodeId coerced to integer. -/
theorem parse_md_table_characterization (md : String) :
    parse_md_table md = if mdFails md then none else some (mdParsedRows md) := by
  unfold parse_md_table mdFails mdParsedRows mdGoodRows mdDataLines mdHeader
  cases h : mdLines md with
  | nil => simp
  | cons l0 t =>
      cases t with
      | nil => simp
      | cons l1 rest =>
          have hlen : ¬ ((l0 :: l1 :: rest).length < 2) := by
            simp only [List.length_cons]
            omega
          simp only [List.headD_cons, List.getD_cons_succ, List.getD_cons_zero,
            List.drop_succ_cons, List.drop_zero, decide_eq_false hlen, Bool.false_or]
          rw [ite_none_chain]

/-- Claim C7, counterexample: the reply "1,5,5" assigns code 5 twice to
the single respondent 1; the summary row for (Q1, 5) carries Count 2
even though only one respondent was assigned the code — Count is not
the number of respondents with the code. -/
theorem summary_count_not_respondent_count :
    buildSummary [("Q1", parse_output "1,5,5" "Q1")] = [⟨"Q1", "5", 2, 2⟩] ∧
      respondentsWith (parse_output "1,5,5" "Q1") "5" = 1 := by
  exact ⟨buildSummary_dup_eval, by decide⟩

/-- Claim C7, amended: for every (QuestionId, CodeId) row of the
summary, Count equals the total number of numeric code cells holding
that code across the question's frame — each respondent contributes
once per occurrence of the code in their parsed row, so a respondent
whose reply lists the same code twice contributes 2. -/
theorem summary_count_counts_cells (frames : List (String × Frame)) (r : SummaryRow)
    (hr : r ∈ buildSummary frames) :
    ∃ qf ∈ frames, r.qid = qf.1 ∧
      r.count = (qf.2.rows.map (fun row =>
        row.2.countP (fun c => (c == r.code) && (toNumeric? c).isSome))).sum := by
  unfold buildSummary at hr
  rcases List.mem_flatMap.mp hr with ⟨qf, hqf, hrq⟩
  unfold questionSummary at hrq
  rcases List.mem_map.mp hrq with ⟨c, hc, rfl⟩
  refine ⟨qf, hqf, rfl, ?_⟩
  show codeCount qf.2 c = _
  unfold codeCount numericCells frameCells
  rw [List.countP_filter, countP_flatMap]
  congr 1
  apply List.map_congr_left
  intro row hrow
  dsimp only
  rw [List.countP_map]
  rfl

/-- Claim C7, witness: the amended count theorem applied to the
concrete duplicate-listing frame, whose summary row for code 5 counts
both occurrences of the code in respondent 1's row. -/
theorem summary_count_counts_cells_witness :
    (⟨"Q1", "5", 2, 2⟩ : SummaryRow) ∈ buildSummary [("Q1", parse_output "1,5,5" "Q1")] ∧
      ∃ qf ∈ [("Q1", parse_output "1,5,5" "Q1")],
        (⟨"Q1", "5", 2, 2⟩ : SummaryRow).qid = qf.1 ∧
          (⟨"Q1", "5", 2, 2⟩ : SummaryRow).count = (qf.2.rows.map (fun row =>
            row.2.countP (fun c =>
              (c == (⟨"Q1", "5", 2, 2⟩ : SummaryRow).code) && (toNumeric? c).isSome))).sum := by
  have hmem : (⟨"Q1", "5", 2, 2⟩ : SummaryRow) ∈
      buildSummary [("Q1", parse_output "1,5,5" "Q1")] := by
    rw [buildSummary_dup_eval]
    exact List.mem_singleton.mpr rfl
  exact ⟨hmem, summary_count_counts_cells _ _ hmem⟩

/-- Claim C8, counterexample: for the reply "1,7,7" the merged table
has n = 1 distinct respondent and code 7 is assigned to k = 1 of them,
yet the summary row's Ratio is 2, not k/n = 1 — the numerator is the
occurrence count, not the respondent count. -/
theorem summary_ratio_not_k_over_n :
    buildSummary [("Q2", parse_output "1,7,7" "Q2")] = [⟨"Q2", "7", 2, 2⟩] ∧
      respondentsWith (parse_output "1,7,7" "Q2") "7" = 1 ∧
      totalIds [parse_output "1,7,7" "Q2"] = 1 ∧
      ¬ ((2 : ℚ) = (1 : ℚ) / (1 : ℚ)) := by
  refine ⟨buildSummary_dup2_eval, by decide, by decide, by norm_num⟩

/-- Claim C8, amended: for every summary row, when the merged table has
n > 0 distinct respondent ids, Ratio equals Count / n exactly (with
Count the occurrence count of the code, which equals the number of
respondents assigned it whenever no respondent repeats a code), and
when n = 0 Ratio is 0 with no division performed. -/
theorem summary_ratio_formula (frames : List (String × Frame)) (r : SummaryRow)
    (hr : r ∈ buildSummary frames) :
    (0 < totalIds (frames.map Prod.snd) →
        r.ratio = (r.count : ℚ) / (totalIds (frames.map Prod.snd) : ℚ)) ∧
      (totalIds (frames.map Prod.snd) = 0 → r.ratio = 0) := by
  unfold buildSummary at hr
  rcases List.mem_flatMap.mp hr with ⟨qf, hqf, hrq⟩
  unfold questionSummary at hrq
  rcases List.mem_map.mp hrq with ⟨c, hc, rfl⟩
  constructor
  · intro hpos
    simp [hpos]
  · intro h0
    simp [h0]

/-- Claim C8, witness: the ratio theorem applied to the concrete
frame: its merged table has one distinct respondent, and the summary
row's Ratio 2 is Count / 1. -/
theorem summary_ratio_formula_witness :
    (⟨"Q2", "7", 2, 2⟩ : SummaryRow) ∈ buildSummary [("Q2", parse_output "1,7,7" "Q2")] ∧
      ((0 < totalIds ([("Q2", parse_output "1,7,7" "Q2")].map Prod.snd) →
          (⟨"Q2", "7", 2, 2⟩ : SummaryRow).ratio =
            ((⟨"Q2", "7", 2, 2⟩ : SummaryRow).count : ℚ) /
              (totalIds ([("Q2", parse_output "1,7,7" "Q2")].map Prod.snd) : ℚ)) ∧
        (totalIds ([("Q2", parse_output "1,7,7" "Q2")].map Prod.snd) = 0 →
          (⟨"Q2", "7", 2, 2⟩ : SummaryRow).ratio = 0)) := by
  have hmem : (⟨"Q2", "7", 2, 2⟩ : SummaryRow) ∈
      buildSummary [("Q2", parse_output "1,7,7" "Q2")] := by
    rw [buildSummary_dup2_eval]
    exact List.mem_singleton.mpr rfl
  exact ⟨hmem, summary_ratio_formula _ _ hmem⟩

/-- Claim C9: when the first request of a coding call yields an
HTTP-success response whose non-JSON body contains the HTML document
marker (in lower case), the loop stops after that single attempt with
no sleep — no retry is triggered — the forbidden-response marker text is
recorded as the output, and the question is then marked failed, so it
joins the fail-list and is excluded from every output. -/
theorem html_marker_no_retry (transport : Nat → TransportResult) (body qid : String)
    (h0 : transport 0 = TransportResult.rawOk body)
    (hdoc : strContains (lowerStr body) "<!doctype" = true) :
    codingCall transport = ⟨1, 0, true, "Forbidden HTML response"⟩ ∧
      questionFailed transport qid = true := by
  have hc : codingCall transport = ⟨1, 0, true, "Forbidden HTML response"⟩ := by
    simp [codingCall, codingGo, h0, outputOf, hdoc]
  refine ⟨hc, ?_⟩
  simp only [questionFailed, hc]
  rw [show strContains "Forbidden HTML response" "Forbidden" = true from by decide]
  simp

/-- Claim C9, witness: the no-retry theorem applied to a transport
whose first response is a raw HTML document. -/
theorem html_marker_no_retry_witness :
    (fun _ => TransportResult.rawOk "<!DOCTYPE html>" : Nat → TransportResult) 0 =
        TransportResult.rawOk "<!DOCTYPE html>" ∧
      strContains (lowerStr "<!DOCTYPE html>") "<!doctype" = true ∧
      (codingCall (fun _ => TransportResult.rawOk "<!DOCTYPE html>") =
          ⟨1, 0, true, "Forbidden HTML response"⟩ ∧
        questionFailed (fun _ => TransportResult.rawOk "<!DOCTYPE html>") "Q1" = true) := by
  exact ⟨rfl, by decide,
    html_marker_no_retry (fun _ => TransportResult.rawOk "<!DOCTYPE html>")
      "<!DOCTYPE html>" "Q1" rfl (by decide)⟩

/-- Claim C10: in the coding flow, whenever the call loop succeeded and
the recorded output contains the substring "Forbidden" or the substring
"API error" anywhere — even when the text parses into a frame with
rows — the question is marked failed and excluded from the outputs. -/
theorem marker_substring_fails_question (transport : Nat → TransportResult) (qid : String)
    (_hs : (codingCall transport).success = true)
    (hm : strContains (codingCall transport).output "Forbidden" = true ∨
      strContains (codingCall transport).output "API error" = true)
    (_hp : ¬ ((parse_output (codingCall transport).output qid).rows = [])) :
    questionFailed transport qid = true := by
  unfold questionFailed
  rcases hm with h | h <;> simp [h]

/-- Claim C10, witness: a successful reply that is a legitimate coding
answer apart from mentioning "API error" parses into a two-row frame
and is nevertheless marked failed. -/
theorem marker_substring_fails_question_witness :
    (codingCall (fun _ => TransportResult.jsonOk "1,5,7;2,5 API error")).success = true ∧
      strContains (codingCall (fun _ => TransportResult.jsonOk "1,5,7;2,5 API error")).output
          "API error" = true ∧
      ¬ ((parse_output
          (codingCall (fun _ => TransportResult.jsonOk "1,5,7;2,5 API error")).output
          "Q1").rows = []) ∧
      questionFailed (fun _ => TransportResult.jsonOk "1,5,7;2,5 API error") "Q1" = true := by
  refine ⟨by decide, by decide, by decide, ?_⟩
  exact marker_substring_fails_question (fun _ => TransportResult.jsonOk "1,5,7;2,5 API error")
    "Q1" (by decide) (Or.inr (by decide)) (by decide)
